import Mathlib

/-!
Shallow embedding of the order-management backend's order / fulfillment
status machine, and theorems checking the specification's claims against it.

Embedded source files:
* backend/app/services/order_status_service.py  (enums, transition tables,
  can_transition_status, get_valid_status_transitions, transition_order_status,
  get_status_timeline)
* backend/app/services/order_service.py         (get_order_by_id, update_order)
* backend/app/services/fulfillment_service.py   (update_fulfillment_status)
* backend/app/schemas/fulfillment.py            (FulfillmentStatus attributes)
* backend/app/routes/fulfillment.py             (override endpoint, status
  update endpoint)
* backend/app/middleware/auth.py                (ROLE_PERMISSIONS,
  has_permission, require_permission, get_current_user)

The persistence collaborator (a hosted relational store reached through a
generic client) is modelled as an explicit `DB` state threaded through the
operations, together with a write log recording the order of writes and
switches that make a history insert fail, which is the only persistence
failure any claim depends on.
-/

namespace OrderMgmt

/-- The `OrderStatus` enum of order_status_service.py. -/
inductive OrderStatus where
  | new
  | pending
  | processing
  | shipped
  | delivered
  | cancelled
  | returned
deriving DecidableEq, Repr

/-- The `.value` of each `OrderStatus` member. -/
def OrderStatus.value : OrderStatus → String
  | .new => "new"
  | .pending => "pending"
  | .processing => "processing"
  | .shipped => "shipped"
  | .delivered => "delivered"
  | .cancelled => "cancelled"
  | .returned => "returned"

/-- All members of the enum, in declaration order. -/
def OrderStatus.all : List OrderStatus :=
  [ .new, .pending, .processing, .shipped, .delivered, .cancelled, .returned ]

/-- The Python enum constructor `OrderStatus(s)`: looks a member up by value;
a string that is no member's value raises `ValueError`, modelled as `none`. -/
def OrderStatus.ofString (s : String) : Option OrderStatus :=
  OrderStatus.all.find? (fun st => st.value == s)

/-- `VALID_STATUS_TRANSITIONS`: the adjacency table of the order-status
machine, in the insertion order of the source's set literals. -/
def VALID_STATUS_TRANSITIONS : OrderStatus → List OrderStatus
  | .new => [ .pending, .cancelled ]
  | .pending => [ .processing, .cancelled ]
  | .processing => [ .shipped, .cancelled ]
  | .shipped => [ .delivered, .returned ]
  | .delivered => [ .returned ]
  | .cancelled => []
  | .returned => []

/-- `STATUS_TRANSITION_ROLES`: roles allowed to perform each transition.
Pairs absent from the source dict map to the empty set. -/
def STATUS_TRANSITION_ROLES : OrderStatus → OrderStatus → List String
  | .new, .pending => [ "customer", "staff", "admin" ]
  | .new, .cancelled => [ "customer", "staff", "admin" ]
  | .pending, .processing => [ "staff", "admin" ]
  | .pending, .cancelled => [ "customer", "staff", "admin" ]
  | .processing, .shipped => [ "staff", "admin" ]
  | .processing, .cancelled => [ "staff", "admin" ]
  | .shipped, .delivered => [ "staff", "admin" ]
  | .shipped, .returned => [ "staff", "admin" ]
  | .delivered, .returned => [ "customer", "staff", "admin" ]
  | _, _ => []

/-- `STATUS_DESCRIPTIONS`: fixed human-readable description per status. -/
def STATUS_DESCRIPTIONS : OrderStatus → String
  | .new => "Order has been created but not yet confirmed."
  | .pending => "Order has been confirmed and is awaiting processing."
  | .processing => "Order is being prepared for shipping."
  | .shipped => "Order has been shipped and is in transit."
  | .delivered => "Order has been delivered to the customer."
  | .cancelled => "Order has been cancelled."
  | .returned => "Order has been returned by the customer."

/-- `get_valid_status_transitions`: list of legal next statuses from a raw
status string; an invalid current status is caught and yields `[]`. -/
def get_valid_status_transitions (current_status : String) : List String :=
  match OrderStatus.ofString current_status with
  | some current => (VALID_STATUS_TRANSITIONS current).map OrderStatus.value
  | none => []

/-- `can_transition_status`: (is_valid, reason) for a requested transition,
checking enum membership, structural legality, then role authorization. -/
def can_transition_status (current_status new_status user_role : String) :
    Bool × String :=
  match OrderStatus.ofString current_status, OrderStatus.ofString new_status with
  | some current, some next =>
    if next ∈ VALID_STATUS_TRANSITIONS current then
      if user_role ∈ STATUS_TRANSITION_ROLES current next then
        (true, "")
      else
        (false, "User with role '" ++ user_role ++ "' cannot transition from '"
          ++ current.value ++ "' to '" ++ next.value ++ "'")
    else
      (false, "Cannot transition from '" ++ current.value ++ "' to '"
        ++ next.value ++ "'. Valid transitions: "
        ++ String.intercalate ", "
            ( (VALID_STATUS_TRANSITIONS current).map OrderStatus.value ))
  | _, _ => (false, "Invalid status value")

/-- Round trip: the enum constructor recovers a member from its value. -/
theorem OrderStatus.ofString_value (st : OrderStatus) :
    OrderStatus.ofString st.value = some st := by
  cases st <;> rfl

/-- C6: for every (current, requested) pair of order statuses with the
requested status outside the adjacency set of the current one, and every
actor role, `can_transition_status` returns allowed = false with a reason
naming both statuses and listing exactly the adjacency set of the current
status. -/
theorem c6_illegal_pair_rejected (current next : OrderStatus) (user_role : String)
    (h : next ∉ VALID_STATUS_TRANSITIONS current) :
    can_transition_status current.value next.value user_role =
      (false, "Cannot transition from '" ++ current.value ++ "' to '"
        ++ next.value ++ "'. Valid transitions: "
        ++ String.intercalate ", "
            ( (VALID_STATUS_TRANSITIONS current).map OrderStatus.value )) := by
  simp [can_transition_status, OrderStatus.ofString_value, h]

/-- C6 witness: from 'new' a request for 'delivered' is rejected, with the
reason listing the adjacency set of 'new' (pending, cancelled). -/
theorem c6_illegal_pair_rejected_witness :
    OrderStatus.delivered ∉ VALID_STATUS_TRANSITIONS OrderStatus.new ∧
    can_transition_status "new" "delivered" "customer" =
      (false,
        "Cannot transition from 'new' to 'delivered'. Valid transitions: pending, cancelled") := by
  refine ⟨ by decide, ?_ ⟩
  have h := c6_illegal_pair_rejected OrderStatus.new OrderStatus.delivered
    "customer" ( by decide )
  simpa using h

/-- C9: `get_valid_status_transitions` is total over arbitrary strings: for
every string that is the value of no member of the order-status enumeration
it returns the empty list (the unknown-status branch is caught internally). -/
theorem c9_unknown_status_gives_empty (s : String)
    (h : ∀ st : OrderStatus, st.value ≠ s) :
    get_valid_status_transitions s = [] := by
  have hn : OrderStatus.ofString s = none := by
    rw [ OrderStatus.ofString, List.find?_eq_none ]
    intro st _
    simp [h st]
  simp [get_valid_status_transitions, hn]

/-- C9 witness: a concrete non-member string yields the empty list. -/
theorem c9_unknown_status_gives_empty_witness :
    (∀ st : OrderStatus, st.value ≠ "bogus") ∧
    get_valid_status_transitions "bogus" = [] := by
  refine ⟨ ?_, ?_ ⟩
  · intro st
    cases st <;> decide
  · exact c9_unknown_status_gives_empty "bogus" ( by intro st; cases st <;> decide )

/-- An error surfaced to the HTTP layer: an `HTTPException` the code raises,
or an uncaught Python exception (AttributeError / ValueError), which the
framework turns into a 500 response. -/
inductive PyErr where
  | http (status_code : Nat) (detail : String)
  | attributeError (cls attr : String)
  | valueError (msg : String)
deriving DecidableEq, Repr

/-- A row of order_items, restricted to the fields the core reads. The stock
level is the datum the fulfillment prerequisite validation checks. -/
structure OrderItem where
  product_id : Nat
  quantity : Nat
  available_stock : Nat
deriving DecidableEq, Repr

/-- A row of the orders table, restricted to the fields the core reads or
writes. Order ids are numbers, user ids strings (UUIDs in the source). -/
structure Order where
  id : Nat
  status : String
  payment_status : String
  fulfillment_status : String
  notes : Option String := none
  shipping_address : Option String := none
  items : List OrderItem := []
deriving DecidableEq, Repr

/-- A row of order_history. -/
structure HistoryEntry where
  order_id : Nat
  previous_status : Option String
  new_status : String
  changed_by : String
  notes : String
  created_at : Nat
deriving DecidableEq, Repr

/-- A row of fulfillment_history. -/
structure FulfillmentHistoryEntry where
  order_id : Nat
  previous_status : String
  new_status : String
  user_id : String
  notes : String
  created_at : Nat
deriving DecidableEq, Repr

/-- A write against the persistence collaborator, recorded in the order the
code performs them. -/
inductive WriteOp where
  | ordersUpdate
  | orderHistoryInsert
  | fulfillmentHistoryInsert
deriving DecidableEq, Repr

/-- The persistence state: the tables the core touches, switches making a
history insert fail with a given message (the only persistence failure any
claim depends on; the orders-table writes themselves are modelled as
succeeding whenever the row exists), a clock for inserted timestamps, and
the write log. -/
structure DB where
  orders : List Order
  order_history : List HistoryEntry := []
  fulfillment_history : List FulfillmentHistoryEntry := []
  orderHistoryInsertError : Option String := none
  fulfillmentHistoryInsertError : Option String := none
  now : Nat := 0
  log : List WriteOp := []
deriving DecidableEq, Repr

/-- Fetch a single orders row by id. -/
def DB.findOrder (db : DB) (order_id : Nat) : Option Order :=
  db.orders.find? (fun o => o.id == order_id)

/-- The orders-table update: replace the row with the matching id. -/
def replaceOrder (orders : List Order) (o : Order) : List Order :=
  orders.map (fun x => if x.id == o.id then o else x)

/-- Descending sort by created_at, as the history fetch in `get_order_by_id`
orders with `desc=True`. -/
def sortDescByCreated (l : List HistoryEntry) : List HistoryEntry :=
  List.insertionSort (fun a b => b.created_at ≤ a.created_at) l

/-- `get_order_by_id` of order_service.py: the order row, together with its
order_history rows ordered by created_at descending; a missing row is a 404.
(The source attaches items and notes as well; only the history is read by
the operations under proof.) -/
def get_order_by_id (db : DB) (order_id : Nat) :
    Except PyErr (Order × List HistoryEntry) :=
  match db.findOrder order_id with
  | none => .error (.http 404 "Error fetching order: No rows found")
  | some o =>
    .ok (o, sortDescByCreated
      (db.order_history.filter (fun e => e.order_id == order_id)))

/-- The `OrderUpdate` schema, restricted to the fields the status services
set; unset fields stay `none` and are excluded from the persisted patch
(`exclude_none=True`). -/
structure OrderUpdate where
  status : Option String := none
  payment_status : Option String := none
  notes : Option String := none
deriving DecidableEq, Repr

/-- Apply an `exclude_none` patch to an orders row. -/
def applyOrderUpdate (o : Order) (u : OrderUpdate) : Order :=
  { o with
    status := u.status.getD o.status
    payment_status := u.payment_status.getD o.payment_status
    notes := match u.notes with
      | some n => some n
      | none => o.notes }

/-- `update_order` of order_service.py: fetches the current row; when the
patch changes the status it first inserts an order_history entry (a failing
insert raises a 500 and aborts), then updates the orders row and returns the
updated order. -/
def update_order (db : DB) (order_id : Nat) (u : OrderUpdate)
    (user_id : String) : Except PyErr Order × DB :=
  match db.findOrder order_id with
  | none => (.error (.http 404 "Error fetching order: No rows found"), db)
  | some current =>
    let step : Except PyErr Unit × DB :=
      match u.status with
      | some s =>
        if s ≠ current.status then
          match db.orderHistoryInsertError with
          | some m =>
            (.error (.http 500 ("Error creating order history: " ++ m)), db)
          | none =>
            (.ok (), { db with
              order_history := db.order_history ++
                [ { order_id := order_id
                    previous_status := some current.status
                    new_status := s
                    changed_by := user_id
                    notes := "Status updated from " ++ current.status
                      ++ " to " ++ s
                    created_at := db.now } ]
              log := db.log ++ [ .orderHistoryInsert ] })
        else (.ok (), db)
      | none => (.ok (), db)
    match step with
    | (.error e, db1) => (.error e, db1)
    | (.ok _, db1) =>
      let updated := applyOrderUpdate current u
      (.ok updated,
        { db1 with
          orders := replaceOrder db1.orders updated
          log := db1.log ++ [ .ordersUpdate ] })

/-- The fixed description for a raw status string; total here because every
call site reaches it only with a validated status string. -/
def statusDescription (s : String) : String :=
  match OrderStatus.ofString s with
  | some st => STATUS_DESCRIPTIONS st
  | none => ""

/-- The auto-composed transition note used when the caller supplies none. -/
def autoTransitionNote (current_status new_status : String) : String :=
  "Status changed from '" ++ current_status ++ "' ("
    ++ statusDescription current_status ++ ") to '" ++ new_status ++ "' ("
    ++ statusDescription new_status ++ ")"

/-- `transition_order_status` of order_status_service.py: loads the order,
validates the transition with `can_transition_status` (an invalid one raises
a 400 with the reason), composes notes, applies the cancel-after-paid refund
rule, and delegates to `update_order`. -/
def transition_order_status (db : DB) (order_id : Nat) (new_status : String)
    (user_id : String) (user_role : String) (notes : Option String) :
    Except PyErr Order × DB :=
  match db.findOrder order_id with
  | none => (.error (.http 404 "Error fetching order: No rows found"), db)
  | some order =>
    match can_transition_status order.status new_status user_role with
    | (false, reason) => (.error (.http 400 reason), db)
    | (true, _) =>
      let transition_notes : String :=
        match notes with
        | some n => if n = "" then autoTransitionNote order.status new_status else n
        | none => autoTransitionNote order.status new_status
      let payment_status : Option String :=
        if new_status = "cancelled" ∧ order.payment_status = "paid" then
          some "refunded"
        else none
      update_order db order_id
        { status := some new_status
          payment_status := payment_status
          notes := some transition_notes } user_id

/-- The class attributes of `FulfillmentStatus` in schemas/fulfillment.py —
a plain `str` subclass, not an enum; these eight names are all it defines.
Looking up any other name is a Python `AttributeError`. -/
def fulfillmentStatusAttr : String → Option String
  | "PENDING" => some "pending"
  | "PROCESSING" => some "processing"
  | "PICKED" => some "picked"
  | "PACKED" => some "packed"
  | "READY" => some "ready"
  | "SHIPPED" => some "shipped"
  | "COMPLETED" => some "completed"
  | "CANCELLED" => some "cancelled"
  | _ => none

/-- Evaluate an attribute access `FulfillmentStatus.<attr>`. -/
def getFulfillmentAttr (attr : String) : Except PyErr String :=
  match fulfillmentStatusAttr attr with
  | some v => .ok v
  | none => .error (.attributeError "FulfillmentStatus" attr)

/-- Modelled from the spec: `validate_status_transition` lives in
app/services/validation_service.py, which is not present under src/ (only
its import and call site in fulfillment_service.py are). Spec section 4.1:
the fulfillment dimension is the chain pending → processing → picked →
packed → ready → shipped → completed, with cancelled reachable from every
non-terminal state; completed and cancelled are terminal. -/
def fulfillmentNextStatuses : String → List String
  | "pending" => [ "processing", "cancelled" ]
  | "processing" => [ "picked", "cancelled" ]
  | "picked" => [ "packed", "cancelled" ]
  | "packed" => [ "ready", "cancelled" ]
  | "ready" => [ "shipped", "cancelled" ]
  | "shipped" => [ "completed", "cancelled" ]
  | _ => []

/-- Modelled from the spec: the (is_valid, errors) result of
`validate_status_transition` for a requested fulfillment transition. -/
def validate_status_transition (current_status new_status : String) :
    Bool × String :=
  if new_status ∈ fulfillmentNextStatuses current_status then (true, "")
  else (false, "transition not allowed")

/-- `update_fulfillment_status` of fulfillment_service.py: fetches the order,
validates the fulfillment transition, builds the patch — the if/elif chain
coupling `shipped`/`delivered`/`cancelled` to the order-level status reads
the `FulfillmentStatus` class attributes lazily, exactly as Python does —
updates the orders row, then inserts a fulfillment_history entry whose
failure is only printed, never surfaced. (The post-commit notification block
swallows every exception and is not modelled.) -/
def update_fulfillment_status (db : DB) (order_id : Nat) (new_status : String)
    (user_id : String) (notes : Option String) : Except PyErr Order × DB :=
  match db.findOrder order_id with
  | none =>
    (.error (.http 404 ("Order with ID '" ++ toString order_id
      ++ "' not found")), db)
  | some order =>
    let current_status := order.fulfillment_status
    match validate_status_transition current_status new_status with
    | (false, errs) =>
      (.error (.http 400 ("Invalid status transition from '" ++ current_status
        ++ "' to '" ++ new_status ++ "': " ++ errs)), db)
    | (true, _) =>
      let statusPatch : Except PyErr (Option String) :=
        match getFulfillmentAttr "SHIPPED" with
        | .error e => .error e
        | .ok shipped =>
          if new_status = shipped then .ok (some "shipped")
          else
            match getFulfillmentAttr "DELIVERED" with
            | .error e => .error e
            | .ok delivered =>
              if new_status = delivered then .ok (some "delivered")
              else
                match getFulfillmentAttr "CANCELLED" with
                | .error e => .error e
                | .ok cancelled =>
                  if new_status = cancelled then .ok (some "cancelled")
                  else .ok none
      match statusPatch with
      | .error e => (.error e, db)
      | .ok patch =>
        let updated := { order with
          fulfillment_status := new_status
          status := patch.getD order.status }
        let db1 : DB := { db with
          orders := replaceOrder db.orders updated
          log := db.log ++ [ WriteOp.ordersUpdate ] }
        let db2 : DB :=
          match db1.fulfillmentHistoryInsertError with
          | some _ => db1
          | none => { db1 with
              fulfillment_history := db1.fulfillment_history ++
                [ { order_id := order_id
                    previous_status := current_status
                    new_status := new_status
                    user_id := user_id
                    notes :=
                      match notes with
                      | some n =>
                        if n = "" then
                          "Status changed from " ++ current_status
                            ++ " to " ++ new_status
                        else n
                      | none =>
                        "Status changed from " ++ current_status
                          ++ " to " ++ new_status
                    created_at := db1.now } ]
              log := db1.log ++ [ WriteOp.fulfillmentHistoryInsert ] }
        (.ok updated, db2)

/-- `ROLE_PERMISSIONS` of middleware/auth.py; roles outside the dict map to
the empty permission list. -/
def ROLE_PERMISSIONS (role : String) : List String :=
  if role = "admin" then
    [ "create:users", "read:users", "update:users", "delete:users",
      "create:orders", "read:orders", "update:orders", "delete:orders",
      "create:products", "read:products", "update:products", "delete:products",
      "read:statistics", "manage:forms", "manage:settings" ]
  else if role = "producer" then
    [ "create:products", "read:products", "update:products", "delete:products",
      "read:orders", "update:orders", "read:statistics", "manage:forms",
      "manage:settings" ]
  else if role = "staff" then
    [ "read:products", "read:orders", "update:orders" ]
  else []

/-- `has_permission` of middleware/auth.py; an empty role string is falsy in
Python and fails closed. -/
def has_permission (user_role required_permission : String) : Bool :=
  if user_role = "" then false
  else (ROLE_PERMISSIONS user_role).contains required_permission

/-- A decoded bearer-token payload: the claims `get_current_user` reads;
`none` models an absent claim. -/
structure TokenPayload where
  sub : Option String := none
  email : Option String := none
  role : Option String := none
deriving DecidableEq, Repr

/-- The actor identity used for authorization decisions. -/
structure UserData where
  id : String
  email : Option String
  role : String
deriving DecidableEq, Repr

/-- `get_current_user` of middleware/auth.py: a missing (or falsy) subject is
a 401; the role claim defaults to "staff" when absent. -/
def get_current_user (payload : TokenPayload) : Except PyErr UserData :=
  match payload.sub with
  | none => .error (.http 401 "Could not validate credentials")
  | some uid =>
    if uid = "" then .error (.http 401 "Could not validate credentials")
    else .ok { id := uid, email := payload.email, role := payload.role.getD "staff" }

/-- The dependency produced by `require_permission(permission)`: rejects with
a 403 unless `has_permission` grants the permission to the user's role. -/
def require_permission_dependency (permission : String) (user : UserData) :
    Except PyErr UserData :=
  if has_permission user.role permission then .ok user
  else .error (.http 403 "You don't have permission to perform this action")

/-- One named check result inside a validation report. -/
structure CheckResult where
  name : String
  passed : Bool
  reason : String
deriving DecidableEq, Repr

/-- Override metadata stamped on a report (who, why, when). -/
structure OverrideMeta where
  overridden_by : String
  override_reason : String
  overridden_at : Nat
deriving DecidableEq, Repr

/-- A fulfillment-prerequisite validation report. -/
structure ValidationReport where
  order_id : Nat
  is_valid : Bool
  checks : List CheckResult
  override : Option OverrideMeta := none
deriving DecidableEq, Repr

/-- Modelled from the spec: the check battery of
`validate_fulfillment_prerequisites` (app/services/validation_service.py is
absent from src/; only its imports and call sites are present). Spec section
4.3: an ordered battery of independent checks against the order and its
items — stock availability, shipping-address completeness, payment state
compatible with fulfillment — each evaluated and recorded regardless of
earlier failures. -/
def fulfillmentChecks (o : Order) : List CheckResult :=
  [ { name := "items_in_stock"
      passed := o.items.all (fun i => i.quantity ≤ i.available_stock)
      reason := "all order items must be available in stock" },
    { name := "shipping_address_complete"
      passed := o.shipping_address.isSome
      reason := "order must have a complete shipping address" },
    { name := "payment_compatible"
      passed := o.payment_status == "paid"
      reason := "payment must be settled before fulfillment" } ]

/-- Modelled from the spec: `validate_fulfillment_prerequisites(orderId) →
(isValid, report)` with `isValid` the AND of all checks and no
short-circuiting; a missing order is the one hard error. -/
def validate_fulfillment_prerequisites (db : DB) (order_id : Nat) :
    Except PyErr (Bool × ValidationReport) :=
  match db.findOrder order_id with
  | none =>
    .error (.http 404 ("Order with ID '" ++ toString order_id ++ "' not found"))
  | some o =>
    let checks := fulfillmentChecks o
    let ok := checks.all (fun c => c.passed)
    .ok (ok, { order_id := order_id, is_valid := ok, checks := checks })

/-- Modelled from the spec: `override_validation(report, actingAdminId,
reason)` of the absent validation_service.py — stamps the report with
override metadata and flips `is_valid` to true without re-running checks,
keeping the original check list for audit. -/
def override_validation (report : ValidationReport) (acting_admin_id : String)
    (reason : String) (now : Nat) : ValidationReport :=
  { report with
    is_valid := true
    override := some { overridden_by := acting_admin_id
                       override_reason := reason
                       overridden_at := now } }

/-- The response of the override endpoint: either no override was needed, or
the overridden report. -/
inductive OverrideResponse where
  | alreadyValid (report : ValidationReport)
  | overridden (report : ValidationReport)
deriving DecidableEq, Repr

/-- `override_fulfillment_validation` of routes/fulfillment.py, including the
`require_permission("admin")` dependency that guards it: runs validation,
returns the report unchanged when it already passes, otherwise applies the
override. -/
def override_fulfillment_validation (db : DB) (order_id : Nat)
    (override_reason : String) (current_user : UserData) :
    Except PyErr OverrideResponse :=
  match require_permission_dependency "admin" current_user with
  | .error e => .error e
  | .ok user =>
    match validate_fulfillment_prerequisites db order_id with
    | .error e => .error e
    | .ok (_, report) =>
      if report.is_valid then .ok (.alreadyValid report)
      else .ok (.overridden
        (override_validation report user.id override_reason db.now))

/-- The `FulfillmentStatusUpdate` request body. -/
structure FulfillmentStatusUpdate where
  status : String
  notes : Option String := none
deriving DecidableEq, Repr

/-- The response of the fulfillment status-update endpoint: a structured
validation-failure payload, or the updated order. -/
inductive EndpointResult where
  | validationFailed (order_id : Nat) (message : String)
      (report : ValidationReport)
  | updated (o : Order)
deriving DecidableEq, Repr

/-- `update_fulfillment_status_endpoint` of routes/fulfillment.py, including
the `require_permission("update:fulfillment")` dependency that guards it
(the permission string "update:fulfillment" is granted by no role in
`ROLE_PERMISSIONS`). Past the guard: non-admins may not skip validation; a
transition to `processing` without the skip flag runs the prerequisite
validation and, on failure, returns the structured validation_failed payload
without mutating anything; otherwise the update service is called. -/
def update_fulfillment_status_endpoint (db : DB) (order_id : Nat)
    (status_update : FulfillmentStatusUpdate) (skip_validation : Bool)
    (current_user : UserData) : Except PyErr EndpointResult × DB :=
  match require_permission_dependency "update:fulfillment" current_user with
  | .error e => (.error e, db)
  | .ok user =>
    if skip_validation = true ∧ user.role.toLower ≠ "admin" then
      (.error (.http 403 "Only administrators can skip validation checks"), db)
    else
      let pre : Except PyErr (Option ValidationReport) :=
        if status_update.status = "processing" ∧ skip_validation = false then
          match validate_fulfillment_prerequisites db order_id with
          | .error e => .error e
          | .ok (is_valid, report) =>
            if is_valid then .ok none else .ok (some report)
        else .ok none
      match pre with
      | .error e => (.error e, db)
      | .ok (some report) =>
        (.ok (.validationFailed order_id
          "Order failed validation checks and cannot be processed" report), db)
      | .ok none =>
        match update_fulfillment_status db order_id status_update.status
            user.id status_update.notes with
        | (.error e, db1) => (.error e, db1)
        | (.ok o, db1) => (.ok (.updated o), db1)

/-- One rendered timeline row of `get_status_timeline`. -/
structure TimelineEntry where
  timestamp : Nat
  status : String
  description : String
  notes : String
  previous_status : Option String
deriving DecidableEq, Repr

/-- Enrich one history entry: `OrderStatus(new_status)` raises `ValueError`
on an unknown status, otherwise the fixed description is attached. -/
def enrichEntry (e : HistoryEntry) : Except PyErr TimelineEntry :=
  match OrderStatus.ofString e.new_status with
  | none => .error (.valueError ("'" ++ e.new_status
      ++ "' is not a valid OrderStatus"))
  | some st =>
    .ok { timestamp := e.created_at
          status := e.new_status
          description := STATUS_DESCRIPTIONS st
          notes := e.notes
          previous_status := e.previous_status }

/-- The Python for-loop of `get_status_timeline`: builds the timeline in
iteration order, propagating the first error. -/
def buildTimeline : List HistoryEntry → Except PyErr (List TimelineEntry)
  | [] => .ok []
  | e :: rest =>
    match enrichEntry e with
    | .error err => .error err
    | .ok t =>
      match buildTimeline rest with
      | .error err => .error err
      | .ok ts => .ok (t :: ts)

/-- `get_status_timeline` of order_status_service.py: reads the order's
history (as `get_order_by_id` returns it) and renders each entry. -/
def get_status_timeline (db : DB) (order_id : Nat) :
    Except PyErr (List TimelineEntry) :=
  match get_order_by_id db order_id with
  | .error e => .error e
  | .ok (_, history) => buildTimeline history

/-- Inverting the enum constructor: a successful lookup returns a member
whose value is the input string. -/
theorem OrderStatus.value_of_ofString {s : String} {st : OrderStatus}
    (h : OrderStatus.ofString s = some st) : st.value = s := by
  have hp := List.find?_some h
  simpa using hp

/-- C10: a verified token payload that carries a subject but no role claim
yields an actor identity whose role is "staff". -/
theorem c10_missing_role_defaults_staff (p : TokenPayload) (uid : String)
    (h1 : p.sub = some uid) (h2 : uid ≠ "") (h3 : p.role = none) :
    get_current_user p = .ok { id := uid, email := p.email, role := "staff" } := by
  simp [get_current_user, h1, h2, h3]

/-- C10 witness: a concrete payload with a subject and no role claim. -/
theorem c10_missing_role_defaults_staff_witness :
    ({ sub := some "user-1" } : TokenPayload).role = none ∧
    get_current_user { sub := some "user-1" } =
      .ok { id := "user-1", email := none, role := "staff" } :=
  ⟨ rfl, c10_missing_role_defaults_staff _ "user-1" rfl ( by decide ) rfl ⟩

/-- No role has the literal permission string "admin": it appears in none of
the `ROLE_PERMISSIONS` lists. -/
theorem has_permission_admin_false (role : String) :
    has_permission role "admin" = false := by
  by_cases h0 : role = ""
  · simp [has_permission, h0]
  · by_cases h1 : role = "admin"
    · subst h1; decide
    · by_cases h2 : role = "producer"
      · subst h2; decide
      · by_cases h3 : role = "staff"
        · subst h3; decide
        · simp [has_permission, ROLE_PERMISSIONS, h0, h1, h2, h3]

/-- C4 (code bug): the override endpoint's guard is
`require_permission("admin")`, but "admin" is a role name, not a permission
string — it is in no role's `ROLE_PERMISSIONS` list, so every actor,
including one with role "admin", is rejected with 403 and no report is ever
changed. -/
theorem c4_override_endpoint_rejects_even_admin (db : DB) (order_id : Nat)
    (override_reason : String) (current_user : UserData) :
    override_fulfillment_validation db order_id override_reason current_user =
      .error (.http 403 "You don't have permission to perform this action") := by
  simp [override_fulfillment_validation, require_permission_dependency,
    has_permission_admin_false]

/-- A concrete order store used by the C2 failing input: one order whose
fulfillment status is still pending. -/
def dbC2 : DB :=
  { orders := [ { id := 1
                  status := "pending"
                  payment_status := "paid"
                  fulfillment_status := "pending" } ] }

/-- C2 (code bug): the lockstep branch of `update_fulfillment_status`
evaluates `FulfillmentStatus.DELIVERED`, an attribute the class does not
define, so every structurally valid fulfillment transition other than to
'shipped' — here, pending → cancelled — dies with an AttributeError before
any write, instead of updating the order-level status in lockstep. -/
theorem c2_lockstep_branch_raises_attribute_error :
    update_fulfillment_status dbC2 1 "cancelled" "staff-1" none =
      (.error (.attributeError "FulfillmentStatus" "DELIVERED"), dbC2) ∧
    fulfillmentStatusAttr "DELIVERED" = none ∧
    "cancelled" ∈ fulfillmentNextStatuses "pending" :=
  ⟨ rfl, rfl, by decide ⟩

/-- A concrete order store for the C1 instance: one order in status
pending. -/
def dbB : DB :=
  { orders := [ { id := 1
                  status := "pending"
                  payment_status := "pending"
                  fulfillment_status := "pending" } ] }

/-- C1 counterexample: the Scenario B instance — order status pending, actor
role customer, requested status processing — is rejected, but with HTTP 400
(BadRequest), not the 403 (Forbidden) the claim states. -/
theorem c1_counterexample_rejection_is_400_not_403 :
    transition_order_status dbB 1 "processing" "cust-1" "customer" none =
      (.error (.http 400
        "User with role 'customer' cannot transition from 'pending' to 'processing'"),
        dbB) ∧
    (400 : Nat) ≠ 403 :=
  ⟨ rfl, by decide ⟩

/-- C1 (amended): a structurally legal transition requested by a role outside
the authorized-role set of that exact pair is rejected by
`transition_order_status` with an HTTP 400 error carrying the rejection
reason, and the store is left unchanged. -/
theorem c1_role_forbidden_rejected_400 (db : DB) (order_id : Nat) (o : Order)
    (new_status user_id user_role : String) (notes : Option String)
    (current next : OrderStatus)
    (h1 : db.findOrder order_id = some o)
    (h2 : OrderStatus.ofString o.status = some current)
    (h3 : OrderStatus.ofString new_status = some next)
    (h4 : next ∈ VALID_STATUS_TRANSITIONS current)
    (h5 : user_role ∉ STATUS_TRANSITION_ROLES current next) :
    transition_order_status db order_id new_status user_id user_role notes =
      (.error (.http 400 ("User with role '" ++ user_role
        ++ "' cannot transition from '" ++ current.value ++ "' to '"
        ++ next.value ++ "'")), db) := by
  simp [transition_order_status, h1, can_transition_status, h2, h3, h4, h5]

/-- C1 witness: the amended statement at the Scenario B instance. -/
theorem c1_role_forbidden_rejected_400_witness :
    OrderStatus.processing ∈ VALID_STATUS_TRANSITIONS OrderStatus.pending ∧
    "customer" ∉ STATUS_TRANSITION_ROLES OrderStatus.pending OrderStatus.processing ∧
    transition_order_status dbB 1 "processing" "cust-1" "customer" none =
      (.error (.http 400
        "User with role 'customer' cannot transition from 'pending' to 'processing'"),
        dbB) := by
  refine ⟨ by decide, by decide, ?_ ⟩
  have h := c1_role_forbidden_rejected_400 dbB 1
    { id := 1
      status := "pending"
      payment_status := "pending"
      fulfillment_status := "pending" }
    "processing" "cust-1" "customer" none OrderStatus.pending
    OrderStatus.processing rfl rfl rfl ( by decide ) ( by decide )
  simpa using h

/-- No role has the literal permission string "update:fulfillment" either:
it appears in none of the `ROLE_PERMISSIONS` lists. -/
theorem has_permission_update_fulfillment_false (role : String) :
    has_permission role "update:fulfillment" = false := by
  by_cases h0 : role = ""
  · simp [has_permission, h0]
  · by_cases h1 : role = "admin"
    · subst h1; decide
    · by_cases h2 : role = "producer"
      · subst h2; decide
      · by_cases h3 : role = "staff"
        · subst h3; decide
        · simp [has_permission, ROLE_PERMISSIONS, h0, h1, h2, h3]

/-- The order from Scenario E: one item with zero stock, everything else in
shape for fulfillment. -/
def oE : Order :=
  { id := 1
    status := "pending"
    payment_status := "paid"
    fulfillment_status := "pending"
    shipping_address := some "Main Street 1"
    items := [ { product_id := 7, quantity := 2, available_stock := 0 } ] }

/-- The store holding the Scenario E order. -/
def dbE : DB := { orders := [ oE ] }

/-- The failing validation report Scenario E produces. -/
def reportE : ValidationReport :=
  { order_id := 1, is_valid := false, checks := fulfillmentChecks oE }

/-- C8 (code bug): the fulfillment status-update endpoint is guarded by
`require_permission("update:fulfillment")`, a permission string no role's
`ROLE_PERMISSIONS` list contains, so every caller — whatever the role, the
payload or the skip flag — is rejected with 403 and the store untouched. In
particular at the Scenario E input (a zero-stock order whose prerequisite
validation does report invalid, even for an admin caller) the endpoint never
returns the claimed validation_failed payload. -/
theorem c8_endpoint_guard_rejects_every_role :
    (∀ (db : DB) (order_id : Nat) (status_update : FulfillmentStatusUpdate)
        (skip_validation : Bool) (current_user : UserData),
      update_fulfillment_status_endpoint db order_id status_update
          skip_validation current_user =
        (.error (.http 403 "You don't have permission to perform this action"),
          db)) ∧
    validate_fulfillment_prerequisites dbE 1 = .ok (false, reportE) ∧
    update_fulfillment_status_endpoint dbE 1 { status := "processing" } false
        { id := "adm-1", email := none, role := "admin" } =
      (.error (.http 403 "You don't have permission to perform this action"),
        dbE) := by
  refine ⟨ ?_, rfl, rfl ⟩
  intro db order_id status_update skip_validation current_user
  simp [update_fulfillment_status_endpoint, require_permission_dependency,
    has_permission_update_fulfillment_false]

/-- Characterizing a successful `update_order`: the returned order is the
patch applied to the fetched row. -/
theorem update_order_fst_ok {db : DB} {order_id : Nat} {u : OrderUpdate}
    {user_id : String} {o' : Order}
    (h : (update_order db order_id u user_id).1 = .ok o') :
    ∃ cur, db.findOrder order_id = some cur ∧ o' = applyOrderUpdate cur u := by
  cases hf : db.findOrder order_id with
  | none => simp [update_order, hf] at h
  | some cur =>
    refine ⟨ cur, rfl, ?_ ⟩
    simp only [update_order, hf] at h
    split at h <;> simp_all

/-- C7: whenever `transition_order_status` succeeds, the cancel-after-paid
rule holds: cancelling an order whose payment status was paid yields payment
status refunded, and any transition of an order whose payment status was not
paid leaves the payment status unchanged. -/
theorem c7_cancel_refund_rule (db : DB) (order_id : Nat)
    (new_status user_id user_role : String) (notes : Option String)
    (o o' : Order)
    (h1 : db.findOrder order_id = some o)
    (h : (transition_order_status db order_id new_status user_id user_role
      notes).1 = .ok o') :
    ((new_status = "cancelled" ∧ o.payment_status = "paid") →
      o'.payment_status = "refunded") ∧
    (o.payment_status ≠ "paid" → o'.payment_status = o.payment_status) := by
  simp only [transition_order_status, h1] at h
  cases hcan : can_transition_status o.status new_status user_role with
  | mk allowed reason =>
    rw [hcan] at h
    cases allowed with
    | false => simp at h
    | true =>
      simp only at h
      obtain ⟨ cur, hcur, ho' ⟩ := update_order_fst_ok h
      rw [h1] at hcur
      injection hcur with hcur
      subst hcur
      subst ho'
      constructor
      · rintro ⟨ ha, hb ⟩
        simp [applyOrderUpdate, ha, hb]
      · intro hnp
        simp [applyOrderUpdate, hnp]

/-- The Scenario D order: processing and paid. -/
def oD : Order :=
  { id := 1
    status := "processing"
    payment_status := "paid"
    fulfillment_status := "pending" }

/-- The store holding the Scenario D order. -/
def dbD : DB := { orders := [ oD ] }

/-- The order Scenario D produces: cancelled and automatically refunded. -/
def oD1 : Order :=
  { id := 1
    status := "cancelled"
    payment_status := "refunded"
    fulfillment_status := "pending"
    notes := some (autoTransitionNote "processing" "cancelled") }

/-- C7 witness: Scenario D — an admin cancels a paid, processing order and
the payment status becomes refunded automatically. -/
theorem c7_cancel_refund_rule_witness :
    (transition_order_status dbD 1 "cancelled" "adm-1" "admin" none).1 =
      .ok oD1 ∧
    oD1.payment_status = "refunded" :=
  ⟨ rfl,
    (c7_cancel_refund_rule dbD 1 "cancelled" "adm-1" "admin" none oD oD1
      rfl rfl).1 ⟨ rfl, rfl ⟩ ⟩

/-- An order one step before shipping, used by the C5 instances. -/
def oW5 : Order :=
  { id := 1
    status := "processing"
    payment_status := "paid"
    fulfillment_status := "ready" }

/-- A store whose fulfillment-history inserts fail. -/
def dbW5 : DB := { orders := [ oW5 ], fulfillmentHistoryInsertError := some "boom" }

/-- A fresh order for the order-dimension C5 instances. -/
def oC5 : Order :=
  { id := 1
    status := "new"
    payment_status := "pending"
    fulfillment_status := "pending" }

/-- A store where every write succeeds. -/
def dbC5 : DB := { orders := [ oC5 ] }

/-- A store whose order-history inserts fail. -/
def dbC5e : DB := { orders := [ oC5 ], orderHistoryInsertError := some "insert failed" }

/-- C5 counterexample: in the order dimension (update_order), a successful
transition inserts the history entry BEFORE the orders-table write, and a
failing history insert is surfaced to the caller as a 500 error, with no
status written — against the claim that in both dimensions the status is
persisted first and a history failure is logged but not surfaced. -/
theorem c5_counterexample_order_dimension :
    (update_order dbC5 1 { status := some "pending" } "u-1").2.log =
      [ WriteOp.orderHistoryInsert, WriteOp.ordersUpdate ] ∧
    [ WriteOp.orderHistoryInsert, WriteOp.ordersUpdate ].head? ≠
      some WriteOp.ordersUpdate ∧
    update_order dbC5e 1 { status := some "pending" } "u-1" =
      (.error (.http 500 "Error creating order history: insert failed"), dbC5e) :=
  ⟨ rfl, by decide, rfl ⟩

/-- C5 (amended): the claim holds for the fulfillment dimension only. In the
fulfillment dimension a successful transition writes the new status first
and appends the history entry afterwards, and the call succeeds with the
updated order whether or not the history insert fails (the failure is only
logged). In the order dimension the history entry is inserted before the
status write, and a failing history insert is surfaced as a 500 error that
aborts the status write. -/
theorem c5_history_write_semantics :
    (∀ (db : DB) (order_id : Nat) (o : Order) (user_id : String)
        (notes : Option String),
      db.findOrder order_id = some o →
      "shipped" ∈ fulfillmentNextStatuses o.fulfillment_status →
      (update_fulfillment_status db order_id "shipped" user_id notes).1 =
          .ok { o with fulfillment_status := "shipped", status := "shipped" } ∧
      (update_fulfillment_status db order_id "shipped" user_id notes).2.log =
          db.log ++ [ WriteOp.ordersUpdate ] ++
            (match db.fulfillmentHistoryInsertError with
              | none => [ WriteOp.fulfillmentHistoryInsert ]
              | some _ => [])) ∧
    (∀ (db : DB) (order_id : Nat) (o : Order) (u : OrderUpdate)
        (user_id s : String),
      db.findOrder order_id = some o →
      u.status = some s →
      s ≠ o.status →
      db.orderHistoryInsertError = none →
      (update_order db order_id u user_id).1 = .ok (applyOrderUpdate o u) ∧
      (update_order db order_id u user_id).2.log =
          db.log ++ [ WriteOp.orderHistoryInsert, WriteOp.ordersUpdate ]) ∧
    (∀ (db : DB) (order_id : Nat) (o : Order) (u : OrderUpdate)
        (user_id s m : String),
      db.findOrder order_id = some o →
      u.status = some s →
      s ≠ o.status →
      db.orderHistoryInsertError = some m →
      update_order db order_id u user_id =
        (.error (.http 500 ("Error creating order history: " ++ m)), db)) := by
  refine ⟨ ?_, ?_, ?_ ⟩
  · intro db order_id o user_id notes h1 h2
    cases herr : db.fulfillmentHistoryInsertError with
    | none =>
      simp [update_fulfillment_status, h1, validate_status_transition, h2,
        getFulfillmentAttr, fulfillmentStatusAttr, herr]
    | some m =>
      simp [update_fulfillment_status, h1, validate_status_transition, h2,
        getFulfillmentAttr, fulfillmentStatusAttr, herr]
  · intro db order_id o u user_id s h1 h2 h3 h4
    simp [update_order, h1, h2, h3, h4]
  · intro db order_id o u user_id s m h1 h2 h3 h4
    simp [update_order, h1, h2, h3, h4]

/-- C5 witness: the amended statement at concrete stores — a shipped
fulfillment transition succeeds with the status write first even though its
history insert fails; an order-dimension update logs history first; a
failing order-history insert surfaces a 500. -/
theorem c5_history_write_semantics_witness :
    (update_fulfillment_status dbW5 1 "shipped" "u-1" none).1 =
      .ok { id := 1, status := "shipped", payment_status := "paid",
            fulfillment_status := "shipped" } ∧
    (update_fulfillment_status dbW5 1 "shipped" "u-1" none).2.log =
      [ WriteOp.ordersUpdate ] ∧
    (update_order dbC5 1 { status := some "pending" } "u-1").1 =
      .ok (applyOrderUpdate oC5 { status := some "pending" }) ∧
    update_order dbC5e 1 { status := some "pending" } "u-1" =
      (.error (.http 500 "Error creating order history: insert failed"), dbC5e) := by
  have hful := c5_history_write_semantics.1 dbW5 1 oW5 "u-1" none rfl ( by decide )
  have hord := c5_history_write_semantics.2.1 dbC5 1 oC5
    { status := some "pending" } "u-1" "pending" rfl rfl ( by decide ) rfl
  have herr := c5_history_write_semantics.2.2 dbC5e 1 oC5
    { status := some "pending" } "u-1" "pending" "insert failed" rfl rfl
    ( by decide ) rfl
  exact ⟨ hful.1, by simpa using hful.2, hord.1, herr ⟩

instance : IsTotal HistoryEntry (fun a b => b.created_at ≤ a.created_at) :=
  ⟨ fun a b => le_total b.created_at a.created_at ⟩

instance : IsTrans HistoryEntry (fun a b => b.created_at ≤ a.created_at) :=
  ⟨ fun _ _ _ hab hbc => le_trans hbc hab ⟩

/-- The enrichment of one history entry, as a total function; it agrees with
`enrichEntry` whenever the entry's status is a member of the enum. -/
def enrichTotal (e : HistoryEntry) : TimelineEntry :=
  { timestamp := e.created_at
    status := e.new_status
    description := statusDescription e.new_status
    notes := e.notes
    previous_status := e.previous_status }

/-- When every entry carries a valid status, the timeline loop succeeds and
is the pointwise enrichment. -/
theorem buildTimeline_ok : ∀ (l : List HistoryEntry),
    (∀ e ∈ l, (OrderStatus.ofString e.new_status).isSome = true) →
    buildTimeline l = .ok (l.map enrichTotal)
  | [], _ => rfl
  | e :: rest, h => by
    have he := h e ( by simp )
    cases hos : OrderStatus.ofString e.new_status with
    | none => rw [hos] at he; simp at he
    | some st =>
      have ih := buildTimeline_ok rest ( fun x hx => h x ( by simp [hx] ) )
      simp [buildTimeline, enrichEntry, hos, ih, enrichTotal, statusDescription]

/-- C3 (amended): for an existing order whose history entries all carry valid
statuses, `get_status_timeline` returns the history enriched with the fixed
description per status, sorted in DESCENDING creation-time order (the
history fetch orders by created_at descending), as a permutation of the
enrichment of the raw history; an empty history yields the empty list, not
an error. -/
theorem c3_timeline_descending (db : DB) (order_id : Nat) (o : Order)
    (h1 : db.findOrder order_id = some o)
    (h2 : ∀ e ∈ db.order_history.filter (fun e => e.order_id == order_id),
      (OrderStatus.ofString e.new_status).isSome = true) :
    get_status_timeline db order_id =
      .ok ((sortDescByCreated
        (db.order_history.filter (fun e => e.order_id == order_id))).map
          enrichTotal) ∧
    ((sortDescByCreated
        (db.order_history.filter (fun e => e.order_id == order_id))).map
          enrichTotal).Pairwise (fun a b => b.timestamp ≤ a.timestamp) ∧
    ((sortDescByCreated
        (db.order_history.filter (fun e => e.order_id == order_id))).map
          enrichTotal).Perm
      ((db.order_history.filter (fun e => e.order_id == order_id)).map
        enrichTotal) ∧
    (db.order_history.filter (fun e => e.order_id == order_id) = [] →
      (sortDescByCreated
        (db.order_history.filter (fun e => e.order_id == order_id))).map
          enrichTotal = []) := by
  refine ⟨ ?_, ?_, ?_, ?_ ⟩
  · have hmem : ∀ e ∈ sortDescByCreated
        (db.order_history.filter (fun e => e.order_id == order_id)),
        (OrderStatus.ofString e.new_status).isSome = true := by
      intro e he
      exact h2 e ((List.perm_insertionSort _ _).mem_iff.mp he)
    simp [get_status_timeline, get_order_by_id, h1, buildTimeline_ok _ hmem]
  · have hs : (sortDescByCreated
        (db.order_history.filter (fun e => e.order_id == order_id))).Pairwise
        (fun a b => b.created_at ≤ a.created_at) :=
      List.sorted_insertionSort
        (fun a b : HistoryEntry => b.created_at ≤ a.created_at)
        (db.order_history.filter (fun e => e.order_id == order_id))
    exact List.pairwise_map.mpr (hs.imp (fun h => h))
  · exact (List.perm_insertionSort _ _).map enrichTotal
  · intro he
    rw [sortDescByCreated, he]
    rfl

/-- The first C3 history entry: the earlier one. -/
def e1 : HistoryEntry :=
  { order_id := 1
    previous_status := none
    new_status := "pending"
    changed_by := "u-1"
    notes := "a"
    created_at := 1 }

/-- The second C3 history entry: the later one. -/
def e2 : HistoryEntry :=
  { order_id := 1
    previous_status := some "pending"
    new_status := "processing"
    changed_by := "u-1"
    notes := "b"
    created_at := 2 }

/-- The C3 order and its two-entry history. -/
def dbT : DB :=
  { orders := [ { id := 1
                  status := "processing"
                  payment_status := "pending"
                  fulfillment_status := "pending" } ]
    order_history := [ e1, e2 ] }

/-- C3 counterexample: on a two-entry history with ascending timestamps 1, 2
the code returns the entries with timestamps 2, 1 — the timeline is NOT in
ascending creation-time order. -/
theorem c3_counterexample_not_ascending :
    get_status_timeline dbT 1 =
      .ok [ { timestamp := 2
              status := "processing"
              description := "Order is being prepared for shipping."
              notes := "b"
              previous_status := some "pending" },
            { timestamp := 1
              status := "pending"
              description := "Order has been confirmed and is awaiting processing."
              notes := "a"
              previous_status := none } ] ∧
    ¬ ([ ({ timestamp := 2
            status := "processing"
            description := "Order is being prepared for shipping."
            notes := "b"
            previous_status := some "pending" } : TimelineEntry),
          { timestamp := 1
            status := "pending"
            description := "Order has been confirmed and is awaiting processing."
            notes := "a"
            previous_status := none } ]).Pairwise
        (fun a b => a.timestamp ≤ b.timestamp) :=
  ⟨ rfl, by decide ⟩

/-- C3 witness: the amended statement at the concrete two-entry store. -/
theorem c3_timeline_descending_witness :
    get_status_timeline dbT 1 =
      .ok ((sortDescByCreated
        (dbT.order_history.filter (fun e => e.order_id == 1))).map
          enrichTotal) ∧
    ((sortDescByCreated
        (dbT.order_history.filter (fun e => e.order_id == 1))).map
          enrichTotal).Pairwise (fun a b => b.timestamp ≤ a.timestamp) := by
  have h := c3_timeline_descending dbT 1
    { id := 1
      status := "processing"
      payment_status := "pending"
      fulfillment_status := "pending" }
    rfl ( by decide )
  exact ⟨ h.1, h.2.1 ⟩

end OrderMgmt
